import Mathlib

/-!
Verification of the CI stage action of ungoogled-chromium-windows
(the file under .github/actions/stage/index.js).

The script is modelled shallowly:

* The pure name derivations (architecture tag, artifact names, build
  driver arguments) become Lean functions with the same conditional
  structure as the JavaScript ternaries.
* `createPortableStructure` becomes a pure function from the directory
  listing of the build output directory, the two architecture flags and
  the outcome of the version query (`Option String`, `none` meaning the
  powershell query threw) to a `PortablePackage` record describing the
  directory tree, the generated files and the archive name it produces.
* `run` becomes `runModel`, a function from a `World` (the outcomes of
  every external interaction: inputs, artifact store calls, process exit
  codes, upload attempt results) to the trace of externally visible
  events together with an `Except` value describing whether the
  invocation ends normally or propagates an error to `core.setFailed`.
-/

/-- Architecture tag used in the portable package name (index.js line
12): the string x86 when the x86 flag is set, else arm64 when the arm
flag is set, else x64. -/
def archTag (x86 arm : Bool) : String :=
  if x86 then "x86" else if arm then "arm64" else "x64"

/-- Snapshot artifact name (index.js line 148): build-artifact-x86 when
x86, else build-artifact-arm when arm, else build-artifact. -/
def artifactName (x86 arm : Bool) : String :=
  if x86 then "build-artifact-x86"
  else if arm then "build-artifact-arm"
  else "build-artifact"

/-- Final package artifact name (index.js line 211): chromium-x86 when
x86, else chromium-arm when arm, else chromium. -/
def finalArtifactName (x86 arm : Bool) : String :=
  if x86 then "chromium-x86"
  else if arm then "chromium-arm"
  else "chromium"

/-- Arguments passed to the python build driver (index.js lines 158-162):
build.py and the ci flag, plus the x86 flag when x86 and the arm flag
when arm. -/
def buildArgs (x86 arm : Bool) : List String :=
  ["build.py", "--ci"]
    ++ (if x86 then ["--x86"] else [])
    ++ (if arm then ["--arm"] else [])

/-- Version string used by the packager: the trimmed stdout of the
powershell version query on success, the literal string unknown when the
query threw (index.js lines 16-26). -/
def versionOf : Option String → String
  | some v => v
  | none => "unknown"

/-- JavaScript prefix test `s.startsWith(p)`, as a structurally recursive
test on the character lists of the two strings. -/
def strStartsWith (s p : String) : Bool :=
  p.data.isPrefixOf s.data

/-- Horizontal rule of 55 equals signs used in the README banner. -/
def readmeRule : String := String.mk (List.replicate 55 '=')

/-- Text of the README.txt template of index.js lines 63-105, with the two
interpolated values `version` and `arch`. -/
def readmeText (version arch : String) : String :=
  "Ungoogled Chromium Portable " ++ version ++ " (" ++ arch ++ ")\n" ++
  "\n" ++
  readmeRule ++ "\n" ++
  "PORTABLE VERSION - NO INSTALLATION REQUIRED\n" ++
  readmeRule ++ "\n" ++
  "\n" ++
  "STRUCTURE:\n" ++
  "----------\n" ++
  "chromePortable-" ++ arch ++ "/\n" ++
  "  ├── chrome.exe          ← Run this file\n" ++
  "  ├── " ++ version ++ "/         ← Browser binaries\n" ++
  "  │   ├── chrome.dll\n" ++
  "  │   ├── Locales/\n" ++
  "  │   ├── *.pak\n" ++
  "  │   └── ...\n" ++
  "  └── UserData/           ← Your profile (created on first run)\n" ++
  "      ├── Default/\n" ++
  "      └── ...\n" ++
  "\n" ++
  "FEATURES:\n" ++
  "---------\n" ++
  "✅ Fully Portable       - Copy folder anywhere\n" ++
  "✅ Symmetric Encryption - Cookies/passwords work on any PC\n" ++
  "✅ Auto User Data Path  - No --user-data-dir needed  \n" ++
  "✅ No Machine Binding   - No --disable-machine-id needed\n" ++
  "✅ No DPAPI Dependency  - Transfer between Windows PCs freely\n" ++
  "\n" ++
  "USAGE:\n" ++
  "------\n" ++
  "1. Extract this archive\n" ++
  "2. Run chrome.exe\n" ++
  "3. Your data is automatically saved to UserData folder\n" ++
  "4. To move to another PC: copy entire folder\n" ++
  "\n" ++
  "NOTES:\n" ++
  "------\n" ++
  "- First run creates UserData folder automatically\n" ++
  "- All your settings, extensions, cookies are in UserData\n" ++
  "- Safe to delete UserData folder to start fresh\n" ++
  "- Version " ++ version ++ " files are in the " ++ version ++ " subfolder\n" ++
  "\n" ++
  "For more info: https://github.com/ungoogled-software/ungoogled-chromium-windows\n"

/-- Text of the .gitignore written at the package root (index.js lines
109-112). -/
def gitignoreText : String :=
  "# Ignore user data\nUserData/*\n!UserData/.gitkeep\n"

/-- Result of `createPortableStructure`: the portable package it lays out
under the chromePortable directory plus the archive it produces.

`rootCopied` are the entries copied from the build output directory to the
package root (the chrome.exe branch of the copy loop); `rootFiles` are all
plain files at the package root after the generated README.txt and
.gitignore are written; `versionEntries` are the entries copied into the
version subdirectory (the final else branch of the copy loop);
`userDataEntries` are the entries of the UserData directory when the
package is archived. -/
structure PortablePackage where
  arch : String
  version : String
  versionDirName : String
  rootCopied : List String
  rootFiles : List String
  versionEntries : List String
  userDataEntries : List String
  readme : String
  gitignore : String
  archiveName : String
  deriving Repr, DecidableEq

/-- Model of `createPortableStructure` (index.js lines 9-132). `files` is
the directory listing of the build output directory; `versionQuery` is
the outcome of the powershell version query (`none` meaning the query
threw). The copy loop sends chrome.exe to the package root, skips every
entry whose name starts with chromePortable-, and sends everything else
into the version subdirectory; then README.txt and .gitignore are written
at the root and .gitkeep inside UserData, and the package directory is
archived under the name built from the version and the architecture
tag. -/
def createPortableStructure (files : List String) (x86 arm : Bool)
    (versionQuery : Option String) : PortablePackage :=
  let arch := archTag x86 arm
  let version := versionOf versionQuery
  let rootCopied := files.filter (fun f => f == "chrome.exe")
  let versionEntries := files.filter
    (fun f => !(f == "chrome.exe") && !(strStartsWith f "chromePortable-"))
  { arch := arch
    version := version
    versionDirName := version
    rootCopied := rootCopied
    rootFiles := rootCopied ++ ["README.txt", ".gitignore"]
    versionEntries := versionEntries
    userDataEntries := [".gitkeep"]
    readme := readmeText version arch
    gitignore := gitignoreText
    archiveName := "ungoogled-chromium-" ++ version ++ "-" ++ arch ++ "-portable.zip" }

/-- Externally visible events of one invocation of `run`, in order. -/
inductive Ev where
  /-- Event of the call setting the finished output of the action to `v`. -/
  | setOutputFinished (v : Bool)
  /-- Event of the artifact store fetch by name (resume path). -/
  | getArtifact (name : String)
  /-- Event of the artifact download to `path` (resume path). -/
  | downloadArtifact (path : String)
  /-- Event of the 7z extraction of `zip` into `dest` (resume path, exit
  code checked). -/
  | extractZip (zip : String) (dest : String)
  /-- Event of the recursive removal of `path`. -/
  | rmRF (path : String)
  /-- Event of the best-effort pip dependency install (return code
  ignored). -/
  | pipInstall
  /-- Event of the python build driver invocation with `args`. -/
  | runBuild (args : List String)
  /-- Event of a timer wait of `ms` milliseconds. -/
  | sleep (ms : Nat)
  /-- Event of `createPortableStructure` run on `buildDir`, producing the
  archive at `archivePath`. -/
  | package (buildDir : String) (archivePath : String)
  /-- Event of the snapshot 7z compression of `src` into `zip` (return
  code ignored). -/
  | snapshotCompress (zip : String) (src : String)
  /-- Event of an artifact deletion attempt by name, its errors
  swallowed. -/
  | deleteArtifact (name : String)
  /-- Event of an artifact upload attempt; `ok` records whether this
  attempt succeeded. -/
  | uploadArtifact (name : String) (file : String) (root : String) (ok : Bool)
  deriving Repr, DecidableEq

/-- Fixed path of the build directory the snapshot artifact is downloaded
to and extracted into (index.js lines 152-154). -/
def cBuildDir : String := "C:\\ungoogled-chromium-windows\\build"

/-- Fixed path of the downloaded snapshot archive (index.js lines
153-155). -/
def cBuildArtifactsZip : String := "C:\\ungoogled-chromium-windows\\build\\artifacts.zip"

/-- Fixed path the snapshot archive is created at (index.js line 230). -/
def cTopArtifactsZip : String := "C:\\ungoogled-chromium-windows\\artifacts.zip"

/-- Fixed build source tree compressed by the snapshot step (index.js
line 231). -/
def cBuildSrc : String := "C:\\ungoogled-chromium-windows\\build\\src"

/-- Fixed repository root, the upload root directory of the snapshot
upload (index.js line 240). -/
def cRepoRoot : String := "C:\\ungoogled-chromium-windows"

/-- Outcomes of every external interaction one invocation of `run` can
perform. The fields `finished`, `from_artifact`, `x86`, `arm` are the
action inputs; the remaining fields are the responses of the environment:
whether each resume step succeeds, the exit code of the build driver, the
located build output directory and its listing, the version query result,
the exit code of the packaging 7z call, the per-attempt results of the
two upload loops, and the exit code of the snapshot 7z call (which the
script ignores, so `runModel` never reads it). -/
structure World where
  finished : Bool
  from_artifact : Bool
  x86 : Bool
  arm : Bool
  getArtifactOk : Bool
  downloadOk : Bool
  extractExit : Nat
  rmOk : Bool
  buildExit : Nat
  buildOutDir : Option String
  buildFiles : List String
  versionQuery : Option String
  packageCompressExit : Nat
  finalUpload : Nat → Bool
  snapUpload : Nat → Bool
  snapCompressExit : Nat

/-- Model of the delete-then-upload retry loop (index.js lines 212-227
and 232-246): up to `fuel` iterations starting at attempt index `i`; each
iteration attempts a deletion (errors swallowed), then an upload; a
successful upload breaks out, a failed one is followed by a fixed
10000 ms sleep before the next iteration. `up j` is whether attempt `j`
succeeds. The loop propagates no error. -/
def uploadLoop (name file root : String) (up : Nat → Bool) : Nat → Nat → List Ev
  | _, 0 => []
  | i, fuel + 1 =>
      Ev.deleteArtifact name ::
      Ev.uploadArtifact name file root (up i) ::
      (if up i then [] else Ev.sleep 10000 :: uploadLoop name file root up (i + 1) fuel)

/-- Model of the from_artifact restore block (index.js lines 150-156):
artifact fetch, download into `cBuildDir`, 7z extraction, removal of the
zip, each step failing by propagating immediately. -/
def resumePhase (w : World) : List Ev × Except String Unit :=
  if w.from_artifact then
    if w.getArtifactOk = false then
      ([Ev.getArtifact (artifactName w.x86 w.arm)],
       Except.error "getArtifact failed")
    else if w.downloadOk = false then
      ([Ev.getArtifact (artifactName w.x86 w.arm), Ev.downloadArtifact cBuildDir],
       Except.error "downloadArtifact failed")
    else if w.extractExit ≠ 0 then
      ([Ev.getArtifact (artifactName w.x86 w.arm), Ev.downloadArtifact cBuildDir,
        Ev.extractZip cBuildArtifactsZip cBuildDir],
       Except.error "7z extract exited nonzero")
    else if w.rmOk = false then
      ([Ev.getArtifact (artifactName w.x86 w.arm), Ev.downloadArtifact cBuildDir,
        Ev.extractZip cBuildArtifactsZip cBuildDir, Ev.rmRF cBuildArtifactsZip],
       Except.error "rmRF failed")
    else
      ([Ev.getArtifact (artifactName w.x86 w.arm), Ev.downloadArtifact cBuildDir,
        Ev.extractZip cBuildArtifactsZip cBuildDir, Ev.rmRF cBuildArtifactsZip],
       Except.ok ())
  else ([], Except.ok ())

/-- Model of the zero-exit branch (index.js lines 171-227): the finished
output is set to true first; then the build output directory is located
(`none` meaning neither the fixed candidates nor the glob found
chrome.exe, raising the build-output-not-found error); then
`createPortableStructure` runs, whose 7z call throws on nonzero exit;
then the final package is uploaded through the retry loop. -/
def successPhase (w : World) : List Ev × Except String Unit :=
  match w.buildOutDir with
  | none =>
      ([Ev.setOutputFinished true],
       Except.error "Could not find build output directory with chrome.exe")
  | some dir =>
      let pkg := createPortableStructure w.buildFiles w.x86 w.arm w.versionQuery
      let apath := dir ++ "\\" ++ pkg.archiveName
      if w.packageCompressExit = 0 then
        (Ev.setOutputFinished true :: Ev.package dir apath ::
          uploadLoop (finalArtifactName w.x86 w.arm) apath dir w.finalUpload 0 5,
         Except.ok ())
      else
        ([Ev.setOutputFinished true, Ev.package dir apath],
         Except.error "7z archive exited nonzero")

/-- Model of the nonzero-exit branch (index.js lines 228-248): sleep
5000 ms, compress the build source tree into `cTopArtifactsZip` with the
return code ignored, upload it under the snapshot artifact name through
the retry loop, then set the finished output to false. -/
def snapshotPhase (w : World) : List Ev × Except String Unit :=
  (Ev.sleep 5000 ::
   Ev.snapshotCompress cTopArtifactsZip cBuildSrc ::
   (uploadLoop (artifactName w.x86 w.arm) cTopArtifactsZip cRepoRoot w.snapUpload 0 5 ++
    [Ev.setOutputFinished false]),
   Except.ok ())

/-- Model of `run` (index.js lines 134-249): the trace of events and
whether the invocation ends normally (`ok`) or propagates an error to the
top-level catch (which marks the CI step failed). -/
def runModel (w : World) : List Ev × Except String Unit :=
  if w.finished then
    ([Ev.setOutputFinished true], Except.ok ())
  else
    match resumePhase w with
    | (evs, Except.error e) => (evs, Except.error e)
    | (evs, Except.ok _) =>
        let mid := [Ev.pipInstall, Ev.runBuild (buildArgs w.x86 w.arm)]
        if w.buildExit = 0 then
          (evs ++ mid ++ (successPhase w).1, (successPhase w).2)
        else
          (evs ++ mid ++ (snapshotPhase w).1, (snapshotPhase w).2)

/-- Predicate: `resumePhase` succeeds — trivially when from_artifact is
false, otherwise all four restore steps succeed. -/
def resumeSucceeds (w : World) : Prop :=
  w.from_artifact = true →
    (w.getArtifactOk = true ∧ w.downloadOk = true ∧ w.extractExit = 0 ∧ w.rmOk = true)

/-- Restore events emitted by a successful `resumePhase`. -/
def resumeEvs (w : World) : List Ev :=
  if w.from_artifact then
    [Ev.getArtifact (artifactName w.x86 w.arm), Ev.downloadArtifact cBuildDir,
     Ev.extractZip cBuildArtifactsZip cBuildDir, Ev.rmRF cBuildArtifactsZip]
  else []

/-- Test: is this event an upload attempt? -/
def isUpload : Ev → Bool
  | Ev.uploadArtifact _ _ _ _ => true
  | _ => false

/-- Number of upload attempts in a trace. -/
def countUploads (t : List Ev) : Nat :=
  (t.filter isUpload).length

/-- Test: is this event a failed upload attempt? -/
def isFailedUpload : Ev → Bool
  | Ev.uploadArtifact _ _ _ false => true
  | _ => false

/-- Test: every failed upload attempt in the trace is immediately
followed by a 10000 ms sleep. -/
def sleepsOk : List Ev → Bool
  | [] => true
  | e :: rest =>
      (if isFailedUpload e then decide (rest.head? = some (Ev.sleep 10000)) else true)
        && sleepsOk rest

/-- Test: is this event one of the four restore side effects of the
resume path (artifact fetch, download, extraction, deletion of the
compressed copy)? -/
def isRestoreEv : Ev → Bool
  | Ev.getArtifact _ => true
  | Ev.downloadArtifact _ => true
  | Ev.extractZip _ _ => true
  | Ev.rmRF _ => true
  | _ => false

/-- Claim C1 exactly as stated: the package contains exactly chrome.exe
at the root, the other build entries under the version subdirectory, and
an empty user-data directory. -/
def c1AsStated (files : List String) (x86 arm : Bool) (vq : Option String) : Prop :=
  (createPortableStructure files x86 arm vq).rootFiles = ["chrome.exe"] ∧
  (createPortableStructure files x86 arm vq).versionEntries =
    files.filter (fun f => !(f == "chrome.exe")) ∧
  (createPortableStructure files x86 arm vq).userDataEntries = []

/-- Claim C8 exactly as stated: executable at the package root, every
other copied entry under the version subdirectory, and the user-data
directory empty at creation time. -/
def c8AsStated (files : List String) (x86 arm : Bool) (vq : Option String) : Prop :=
  "chrome.exe" ∈ (createPortableStructure files x86 arm vq).rootFiles ∧
  (∀ f ∈ files, f ≠ "chrome.exe" → strStartsWith f "chromePortable-" = false →
    f ∈ (createPortableStructure files x86 arm vq).versionEntries) ∧
  (createPortableStructure files x86 arm vq).userDataEntries = []

/-- Fixed environment used to instantiate the theorems below: a plain x64
invocation whose build succeeds, whose build output directory is found,
and whose external calls all succeed. -/
def wDefault : World :=
  { finished := false
    from_artifact := false
    x86 := false
    arm := false
    getArtifactOk := true
    downloadOk := true
    extractExit := 0
    rmOk := true
    buildExit := 0
    buildOutDir := some "C:\\ungoogled-chromium-windows\\build\\src\\out\\Default"
    buildFiles := ["chrome.exe", "chrome.dll"]
    versionQuery := some "138.0.7204.97"
    packageCompressExit := 0
    finalUpload := fun _ => true
    snapUpload := fun _ => true
    snapCompressExit := 0 }

/-- Environment for the C3 witness: the build succeeds and all five final
upload attempts fail. -/
def wAllUploadsFail : World := { wDefault with finalUpload := fun _ => false }

/-- Environment for the C4 witness: the build driver exits 1, the
snapshot compressor exits 2 (ignored) and every snapshot upload attempt
fails. -/
def wBuildFail : World :=
  { wDefault with buildExit := 1, snapUpload := fun _ => false, snapCompressExit := 2 }

/-- Environment for the C6 witness: a resume invocation whose artifact
fetch fails. -/
def wResumeFetchFail : World :=
  { wDefault with from_artifact := true, getArtifactOk := false }

/-! ## Sanity examples on concrete inputs -/

example :
    (createPortableStructure ["chrome.exe", "chrome.dll", "Locales"] false false
      (some "138.0.7204.97")).versionEntries = ["chrome.dll", "Locales"] := by decide

example :
    (createPortableStructure ["chrome.exe", "chrome.dll"] false false
      none).archiveName = "ungoogled-chromium-unknown-x64-portable.zip" := by decide

example :
    (createPortableStructure ["chrome.exe", "chromePortable-x64", "a.pak"] false false
      (some "1.0")).versionEntries = ["a.pak"] := by decide

/-! ## Helper lemmas -/

lemma resumePhase_ok (w : World) (hres : resumeSucceeds w) :
    resumePhase w = (resumeEvs w, Except.ok ()) := by
  by_cases hfa : w.from_artifact = true
  · obtain ⟨h1, h2, h3, h4⟩ := hres hfa
    simp [resumePhase, resumeEvs, hfa, h1, h2, h3, h4]
  · simp only [Bool.not_eq_true] at hfa
    simp [resumePhase, resumeEvs, hfa]

lemma runModel_shape (w : World) (hf : w.finished = false) (hres : resumeSucceeds w) :
    runModel w =
      (resumeEvs w ++ [Ev.pipInstall, Ev.runBuild (buildArgs w.x86 w.arm)] ++
        (if w.buildExit = 0 then (successPhase w).1 else (snapshotPhase w).1),
       if w.buildExit = 0 then (successPhase w).2 else (snapshotPhase w).2) := by
  simp only [runModel, hf, resumePhase_ok w hres]
  by_cases hb : w.buildExit = 0 <;> simp [hb]

lemma mem_uploadLoop {n f r : String} {up : Nat → Bool} {e : Ev} :
    ∀ fuel i, e ∈ uploadLoop n f r up i fuel →
      e = Ev.deleteArtifact n ∨ (∃ b, e = Ev.uploadArtifact n f r b) ∨
        e = Ev.sleep 10000 := by
  intro fuel
  induction fuel with
  | zero => intro i h; simp [uploadLoop] at h
  | succ k ih =>
      intro i h
      by_cases hup : up i = true
      · simp only [uploadLoop, hup, if_pos, List.mem_cons, List.mem_singleton,
          List.not_mem_nil] at h
        rcases h with h | h | h
        · exact Or.inl h
        · exact Or.inr (Or.inl ⟨true, h⟩)
        · exact absurd h (by simp)
      · simp only [Bool.not_eq_true] at hup
        simp only [uploadLoop, hup, Bool.false_eq_true, if_neg, List.mem_cons,
          not_false_iff] at h
        rcases h with h | h | h | h
        · exact Or.inl h
        · exact Or.inr (Or.inl ⟨false, h⟩)
        · exact Or.inr (Or.inr h)
        · exact ih (i + 1) h

lemma countUploads_append (a b : List Ev) :
    countUploads (a ++ b) = countUploads a + countUploads b := by
  simp [countUploads, List.filter_append]

lemma countUploads_uploadLoop_le (n f r : String) (up : Nat → Bool) :
    ∀ fuel i, countUploads (uploadLoop n f r up i fuel) ≤ fuel := by
  intro fuel
  induction fuel with
  | zero => intro i; simp [uploadLoop, countUploads]
  | succ k ih =>
      intro i
      by_cases hup : up i = true
      · simp [uploadLoop, hup, countUploads, isUpload, List.filter]
      · simp only [Bool.not_eq_true] at hup
        simp only [uploadLoop, hup, Bool.false_eq_true, if_neg, not_false_iff]
        have := ih (i + 1)
        simp only [countUploads, List.filter] at this ⊢
        simp [isUpload]
        omega

lemma countUploads_uploadLoop_allFail (n f r : String) (up : Nat → Bool)
    (hall : ∀ j, up j = false) :
    ∀ fuel i, countUploads (uploadLoop n f r up i fuel) = fuel := by
  intro fuel
  induction fuel with
  | zero => intro i; simp [uploadLoop, countUploads]
  | succ k ih =>
      intro i
      have := ih (i + 1)
      simp only [uploadLoop, hall i, Bool.false_eq_true, if_neg, not_false_iff]
      simp only [countUploads, List.filter] at this ⊢
      simp [isUpload]
      omega

lemma sleepsOk_append_of_clean (a b : List Ev)
    (h : ∀ e ∈ a, isFailedUpload e = false) :
    sleepsOk (a ++ b) = sleepsOk b := by
  induction a with
  | nil => simp
  | cons x xs ih =>
      simp only [List.cons_append, sleepsOk, h x (List.mem_cons_self x xs),
        Bool.false_eq_true, if_neg, not_false_iff, Bool.true_and]
      exact ih (fun e he => h e (List.mem_cons_of_mem x he))

lemma sleepsOk_uploadLoop_append (n f r : String) (up : Nat → Bool) :
    ∀ fuel i rest, sleepsOk rest = true →
      sleepsOk (uploadLoop n f r up i fuel ++ rest) = true := by
  intro fuel
  induction fuel with
  | zero => intro i rest h; simpa [uploadLoop]
  | succ k ih =>
      intro i rest h
      by_cases hup : up i = true
      · simp [uploadLoop, hup, sleepsOk, isFailedUpload, h]
      · simp only [Bool.not_eq_true] at hup
        simp only [uploadLoop, hup, Bool.false_eq_true, if_neg, not_false_iff,
          List.cons_append, sleepsOk, isFailedUpload]
        simp only [List.head?, List.cons_append]
        simp [ih (i + 1) rest h]

lemma sleepsOk_uploadLoop (n f r : String) (up : Nat → Bool) (fuel i : Nat) :
    sleepsOk (uploadLoop n f r up i fuel) = true := by
  simpa using sleepsOk_uploadLoop_append n f r up fuel i [] rfl

lemma countUploads_nil : countUploads [] = 0 := rfl

lemma countUploads_cons_nonupload (e : Ev) (t : List Ev) (h : isUpload e = false) :
    countUploads (e :: t) = countUploads t := by
  simp [countUploads, List.filter, h]

lemma countUploads_resumeEvs (w : World) : countUploads (resumeEvs w) = 0 := by
  cases hfa : w.from_artifact <;>
    simp [resumeEvs, hfa, countUploads, List.filter, isUpload]

lemma setOutput_not_mem_uploadLoop (v : Bool) (n f r : String) (up : Nat → Bool)
    (fuel i : Nat) : Ev.setOutputFinished v ∉ uploadLoop n f r up i fuel := by
  intro h
  rcases mem_uploadLoop fuel i h with h | ⟨b, h⟩ | h <;> simp at h

lemma setOutput_not_mem_resumeEvs (w : World) (v : Bool) :
    Ev.setOutputFinished v ∉ resumeEvs w := by
  cases hfa : w.from_artifact <;> simp [resumeEvs, hfa]

lemma upload_not_mem_resumeEvs (w : World) (n f r : String) (b : Bool) :
    Ev.uploadArtifact n f r b ∉ resumeEvs w := by
  cases hfa : w.from_artifact <;> simp [resumeEvs, hfa]

lemma sleepsOk_cons_clean (e : Ev) (t : List Ev) (h : isFailedUpload e = false) :
    sleepsOk (e :: t) = sleepsOk t := by
  simp [sleepsOk, h]

lemma resumePhase_events (w : World) :
    ∀ e ∈ (resumePhase w).1, isUpload e = false ∧ isFailedUpload e = false := by
  unfold resumePhase
  split_ifs <;> simp [isUpload, isFailedUpload]

lemma countUploads_successPhase (w : World) : countUploads (successPhase w).1 ≤ 5 := by
  cases hdir : w.buildOutDir with
  | none => simp [successPhase, hdir, countUploads, List.filter, isUpload]
  | some dir =>
      by_cases hz : w.packageCompressExit = 0
      · simp only [successPhase, hdir, hz, if_pos]
        rw [countUploads_cons_nonupload _ _ (by simp [isUpload]),
            countUploads_cons_nonupload _ _ (by simp [isUpload])]
        exact countUploads_uploadLoop_le _ _ _ _ 5 0
      · simp [successPhase, hdir, hz, countUploads, List.filter, isUpload]

lemma countUploads_snapshotPhase (w : World) : countUploads (snapshotPhase w).1 ≤ 5 := by
  simp only [snapshotPhase]
  rw [countUploads_cons_nonupload _ _ (by simp [isUpload]),
      countUploads_cons_nonupload _ _ (by simp [isUpload]),
      countUploads_append]
  have h1 := countUploads_uploadLoop_le (artifactName w.x86 w.arm) cTopArtifactsZip
    cRepoRoot w.snapUpload 5 0
  have h2 : countUploads [Ev.setOutputFinished false] = 0 := by
    simp [countUploads, List.filter, isUpload]
  omega

lemma sleepsOk_successPhase (w : World) : sleepsOk (successPhase w).1 = true := by
  cases hdir : w.buildOutDir with
  | none => simp [successPhase, hdir, sleepsOk, isFailedUpload]
  | some dir =>
      by_cases hz : w.packageCompressExit = 0
      · simp only [successPhase, hdir, hz, if_pos]
        rw [sleepsOk_cons_clean _ _ (by simp [isFailedUpload]),
            sleepsOk_cons_clean _ _ (by simp [isFailedUpload])]
        exact sleepsOk_uploadLoop _ _ _ _ 5 0
      · simp [successPhase, hdir, hz, sleepsOk, isFailedUpload]

lemma sleepsOk_snapshotPhase (w : World) : sleepsOk (snapshotPhase w).1 = true := by
  simp only [snapshotPhase]
  rw [sleepsOk_cons_clean _ _ (by simp [isFailedUpload]),
      sleepsOk_cons_clean _ _ (by simp [isFailedUpload])]
  exact sleepsOk_uploadLoop_append _ _ _ _ 5 0 _ rfl

lemma countUploads_eq_zero_of_clean (t : List Ev) (h : ∀ e ∈ t, isUpload e = false) :
    countUploads t = 0 := by
  simp only [countUploads, List.length_eq_zero, List.filter_eq_nil_iff]
  intro a ha
  simp [h a ha]

lemma countUploads_le_five (w : World) : countUploads (runModel w).1 ≤ 5 := by
  by_cases hfin : w.finished = true
  · simp [runModel, hfin, countUploads, List.filter, isUpload]
  · simp only [Bool.not_eq_true] at hfin
    rcases hrp : resumePhase w with ⟨evs, res⟩
    have hclean := resumePhase_events w
    rw [hrp] at hclean
    have hevs : countUploads evs = 0 :=
      countUploads_eq_zero_of_clean evs (fun e he => (hclean e he).1)
    cases res with
    | error e =>
        simp only [runModel, hfin, Bool.false_eq_true, if_neg, not_false_iff, hrp]
        omega
    | ok u =>
        have hmid : countUploads [Ev.pipInstall,
            Ev.runBuild (buildArgs w.x86 w.arm)] = 0 := by
          simp [countUploads, List.filter, isUpload]
        simp only [runModel, hfin, Bool.false_eq_true, if_neg, not_false_iff, hrp]
        by_cases hb : w.buildExit = 0
        · have hs := countUploads_successPhase w
          simp only [hb, if_pos, countUploads_append]
          omega
        · have hs := countUploads_snapshotPhase w
          simp only [hb, if_neg, not_false_iff, countUploads_append]
          omega

lemma sleepsOk_of_clean_front (a b : List Ev)
    (ha : ∀ e ∈ a, isFailedUpload e = false) (hb : sleepsOk b = true) :
    sleepsOk (a ++ b) = true := by
  rw [sleepsOk_append_of_clean a b ha]
  exact hb

lemma sleepsOk_runModel (w : World) : sleepsOk (runModel w).1 = true := by
  by_cases hfin : w.finished = true
  · simp [runModel, hfin, sleepsOk, isFailedUpload]
  · simp only [Bool.not_eq_true] at hfin
    rcases hrp : resumePhase w with ⟨evs, res⟩
    have hclean := resumePhase_events w
    rw [hrp] at hclean
    have hevs : ∀ e ∈ evs, isFailedUpload e = false :=
      fun e he => (hclean e he).2
    cases res with
    | error e =>
        simp only [runModel, hfin, Bool.false_eq_true, if_neg, not_false_iff, hrp]
        have := sleepsOk_append_of_clean evs [] hevs
        simpa using this
    | ok u =>
        have hmid : ∀ e ∈ [Ev.pipInstall, Ev.runBuild (buildArgs w.x86 w.arm)],
            isFailedUpload e = false := by simp [isFailedUpload]
        simp only [runModel, hfin, Bool.false_eq_true, if_neg, not_false_iff, hrp]
        by_cases hb : w.buildExit = 0
        · simp only [hb, if_pos, List.append_assoc]
          exact sleepsOk_of_clean_front _ _ hevs
            (sleepsOk_of_clean_front _ _ hmid (sleepsOk_successPhase w))
        · simp only [hb, if_neg, not_false_iff, List.append_assoc]
          exact sleepsOk_of_clean_front _ _ hevs
            (sleepsOk_of_clean_front _ _ hmid (sleepsOk_snapshotPhase w))

lemma isRestoreEv_false_uploadLoop (n f r : String) (up : Nat → Bool) (fuel i : Nat) :
    ∀ e ∈ uploadLoop n f r up i fuel, isRestoreEv e = false := by
  intro e he
  rcases mem_uploadLoop fuel i he with h | ⟨b, h⟩ | h <;> subst h <;> rfl

lemma isRestoreEv_false_successPhase (w : World) :
    ∀ e ∈ (successPhase w).1, isRestoreEv e = false := by
  intro e he
  cases hdir : w.buildOutDir with
  | none =>
      simp only [successPhase, hdir] at he
      simp only [List.mem_singleton] at he
      subst he; rfl
  | some dir =>
      by_cases hz : w.packageCompressExit = 0
      · simp only [successPhase, hdir, hz, if_pos, List.mem_cons] at he
        rcases he with h | h | h
        · subst h; rfl
        · subst h; rfl
        · exact isRestoreEv_false_uploadLoop _ _ _ _ 5 0 e h
      · simp only [successPhase, hdir, hz, if_neg, not_false_iff,
          List.mem_cons, List.not_mem_nil, or_false] at he
        rcases he with h | h <;> (subst h; rfl)

lemma isRestoreEv_false_snapshotPhase (w : World) :
    ∀ e ∈ (snapshotPhase w).1, isRestoreEv e = false := by
  intro e he
  simp only [snapshotPhase, List.mem_cons, List.mem_append,
    List.mem_singleton, List.not_mem_nil, or_false] at he
  rcases he with h | h | (h | h)
  · subst h; rfl
  · subst h; rfl
  · exact isRestoreEv_false_uploadLoop _ _ _ _ 5 0 e h
  · subst h; rfl

lemma filter_beq_self_of_nodup (files : List String) (hnd : files.Nodup)
    (hmem : "chrome.exe" ∈ files) :
    files.filter (fun f => f == "chrome.exe") = ["chrome.exe"] := by
  rw [List.filter_beq, List.count_eq_one_of_mem hnd hmem]
  rfl

/-! ## Claims -/

/-- C1 counterexample: for the build listing of chrome.exe and chrome.dll
the package root additionally holds the generated README.txt and
.gitignore, and the user-data directory holds the generated .gitkeep, so
the claimed exact contents are wrong. -/
theorem c1_claim_counterexample :
    ¬ c1AsStated ["chrome.exe", "chrome.dll"] false false (some "138.0.7204.97") := by
  unfold c1AsStated
  decide

/-- C1 (amended): besides chrome.exe the package root holds exactly the
generated README.txt and .gitignore; the version subdirectory holds
exactly the N other entries — none duplicated, none lost; and the
user-data directory holds exactly the generated .gitkeep placeholder (so
it is not empty). -/
theorem c1_portable_package_contents (files : List String) (x86 arm : Bool)
    (vq : Option String) (hmem : "chrome.exe" ∈ files)
    (hnp : ∀ f ∈ files, strStartsWith f "chromePortable-" = false)
    (hnd : files.Nodup) :
    (createPortableStructure files x86 arm vq).rootCopied = ["chrome.exe"] ∧
    (createPortableStructure files x86 arm vq).rootFiles =
      ["chrome.exe", "README.txt", ".gitignore"] ∧
    (createPortableStructure files x86 arm vq).versionEntries =
      files.filter (fun f => !(f == "chrome.exe")) ∧
    (createPortableStructure files x86 arm vq).versionEntries.Nodup ∧
    (∀ f ∈ files, f ≠ "chrome.exe" →
      f ∈ (createPortableStructure files x86 arm vq).versionEntries) ∧
    (∀ f ∈ (createPortableStructure files x86 arm vq).versionEntries,
      f ∈ files ∧ f ≠ "chrome.exe") ∧
    (createPortableStructure files x86 arm vq).userDataEntries = [".gitkeep"] := by
  have hroot := filter_beq_self_of_nodup files hnd hmem
  have hfc : files.filter
        (fun f => !(f == "chrome.exe") && !(strStartsWith f "chromePortable-")) =
      files.filter (fun f => !(f == "chrome.exe")) :=
    List.filter_congr (fun f hf => by rw [hnp f hf]; simp)
  refine ⟨?_, ?_, ?_, ?_, ?_, ?_, ?_⟩
  · simpa [createPortableStructure] using hroot
  · simp [createPortableStructure, hroot]
  · simpa [createPortableStructure] using hfc
  · simpa [createPortableStructure, hfc] using List.Nodup.filter _ hnd
  · intro f hf hne
    simp [createPortableStructure, List.mem_filter, hf, hne, hnp f hf]
  · intro f hf
    simp only [createPortableStructure, List.mem_filter, Bool.and_eq_true,
      Bool.not_eq_true', beq_eq_false_iff_ne] at hf
    exact ⟨hf.1, hf.2.1⟩
  · simp [createPortableStructure]

/-- Witness for C1 (amended) at a concrete build listing. -/
theorem c1_portable_package_contents_witness :
    (createPortableStructure ["chrome.exe", "chrome.dll", "Locales"] false false
      (some "138.0.7204.97")).rootCopied = ["chrome.exe"] ∧
    (createPortableStructure ["chrome.exe", "chrome.dll", "Locales"] false false
      (some "138.0.7204.97")).rootFiles = ["chrome.exe", "README.txt", ".gitignore"] ∧
    (createPortableStructure ["chrome.exe", "chrome.dll", "Locales"] false false
      (some "138.0.7204.97")).versionEntries =
      ["chrome.exe", "chrome.dll", "Locales"].filter (fun f => !(f == "chrome.exe")) ∧
    (createPortableStructure ["chrome.exe", "chrome.dll", "Locales"] false false
      (some "138.0.7204.97")).versionEntries.Nodup ∧
    (∀ f ∈ ["chrome.exe", "chrome.dll", "Locales"], f ≠ "chrome.exe" →
      f ∈ (createPortableStructure ["chrome.exe", "chrome.dll", "Locales"] false false
        (some "138.0.7204.97")).versionEntries) ∧
    (∀ f ∈ (createPortableStructure ["chrome.exe", "chrome.dll", "Locales"] false false
        (some "138.0.7204.97")).versionEntries,
      f ∈ ["chrome.exe", "chrome.dll", "Locales"] ∧ f ≠ "chrome.exe") ∧
    (createPortableStructure ["chrome.exe", "chrome.dll", "Locales"] false false
      (some "138.0.7204.97")).userDataEntries = [".gitkeep"] :=
  c1_portable_package_contents ["chrome.exe", "chrome.dll", "Locales"] false false
    (some "138.0.7204.97") (by decide) (by decide) (by decide)

/-- C2: for the three architecture selections (default, x86, arm) the
derived names are mapped as: default gives tag x64 and the unqualified
artifact names; x86 gives tag x86 and the -x86 suffix; arm gives tag
arm64 but the -arm artifact-name suffix; and the three values of each
derivation are mutually distinct. -/
theorem c2_architecture_names :
    (archTag false false = "x64" ∧ artifactName false false = "build-artifact" ∧
      finalArtifactName false false = "chromium") ∧
    (archTag true false = "x86" ∧ artifactName true false = "build-artifact-x86" ∧
      finalArtifactName true false = "chromium-x86") ∧
    (archTag false true = "arm64" ∧ artifactName false true = "build-artifact-arm" ∧
      finalArtifactName false true = "chromium-arm") ∧
    (archTag false false ≠ archTag true false ∧ archTag false false ≠ archTag false true ∧
      archTag true false ≠ archTag false true) ∧
    (artifactName false false ≠ artifactName true false ∧
      artifactName false false ≠ artifactName false true ∧
      artifactName true false ≠ artifactName false true) ∧
    (finalArtifactName false false ≠ finalArtifactName true false ∧
      finalArtifactName false false ≠ finalArtifactName false true ∧
      finalArtifactName true false ≠ finalArtifactName false true) := by
  decide

/-- C3: every publish (final package on the success branch, snapshot on
the failure branch) attempts the upload at most 5 times; every failed
attempt is followed by the fixed 10000 ms delay (`sleepsOk`); when all 5
attempts fail no error is propagated (the invocation still ends with
`Except.ok`); and the finished output reflects the build result — on the
success branch it is true and never false, regardless of the upload
outcomes. -/
theorem c3_upload_retry_policy (w : World)
    (hf : w.finished = false) (hres : resumeSucceeds w) :
    countUploads (runModel w).1 ≤ 5 ∧
    sleepsOk (runModel w).1 = true ∧
    (w.buildExit = 0 → w.packageCompressExit = 0 → (∃ d, w.buildOutDir = some d) →
      (runModel w).2 = Except.ok () ∧
      ((∀ i, w.finalUpload i = false) → countUploads (runModel w).1 = 5) ∧
      Ev.setOutputFinished true ∈ (runModel w).1 ∧
      Ev.setOutputFinished false ∉ (runModel w).1) ∧
    (w.buildExit ≠ 0 →
      (runModel w).2 = Except.ok () ∧
      ((∀ i, w.snapUpload i = false) → countUploads (runModel w).1 = 5)) := by
  have hshape := runModel_shape w hf hres
  refine ⟨countUploads_le_five w, sleepsOk_runModel w, ?_, ?_⟩
  · rintro hb hz ⟨d, hdir⟩
    have hsucc : successPhase w =
        (Ev.setOutputFinished true ::
          Ev.package d (d ++ "\\" ++
            (createPortableStructure w.buildFiles w.x86 w.arm w.versionQuery).archiveName) ::
          uploadLoop (finalArtifactName w.x86 w.arm)
            (d ++ "\\" ++
              (createPortableStructure w.buildFiles w.x86 w.arm w.versionQuery).archiveName)
            d w.finalUpload 0 5,
         Except.ok ()) := by
      simp [successPhase, hdir, hz]
    refine ⟨?_, ?_, ?_, ?_⟩
    · rw [hshape]
      simp [hb, hsucc]
    · intro hall
      rw [hshape]
      simp only [hb, if_pos, hsucc]
      rw [countUploads_append, countUploads_append, countUploads_resumeEvs,
        countUploads_cons_nonupload _ _ (by simp [isUpload]),
        countUploads_cons_nonupload _ _ (by simp [isUpload]),
        countUploads_cons_nonupload _ _ (by simp [isUpload]),
        countUploads_cons_nonupload _ _ (by simp [isUpload]),
        countUploads_nil,
        countUploads_uploadLoop_allFail _ _ _ _ hall 5 0]
    · rw [hshape]
      simp [hb, hsucc, List.mem_append]
    · rw [hshape]
      simp only [hb, if_pos, hsucc, List.mem_append, List.mem_cons]
      intro hmem
      rcases hmem with (h | h) | h
      · exact setOutput_not_mem_resumeEvs w false h
      · simp at h
      · rcases h with h | h | h
        · simp at h
        · simp at h
        · exact setOutput_not_mem_uploadLoop false _ _ _ _ 5 0 h
  · intro hb
    refine ⟨?_, ?_⟩
    · rw [hshape]
      simp [hb, snapshotPhase]
    · intro hall
      rw [hshape]
      simp only [hb, if_neg, not_false_iff, snapshotPhase]
      rw [countUploads_append, countUploads_append, countUploads_resumeEvs,
        countUploads_cons_nonupload _ _ (by simp [isUpload]),
        countUploads_cons_nonupload _ _ (by simp [isUpload]),
        countUploads_cons_nonupload _ _ (by simp [isUpload]),
        countUploads_cons_nonupload _ _ (by simp [isUpload]),
        countUploads_append,
        countUploads_uploadLoop_allFail _ _ _ _ hall 5 0]
      simp [countUploads, List.filter, isUpload]

/-- Witness for C3. -/
theorem c3_upload_retry_policy_witness :
    countUploads (runModel wAllUploadsFail).1 ≤ 5 ∧
    sleepsOk (runModel wAllUploadsFail).1 = true ∧
    (wAllUploadsFail.buildExit = 0 → wAllUploadsFail.packageCompressExit = 0 →
      (∃ d, wAllUploadsFail.buildOutDir = some d) →
      (runModel wAllUploadsFail).2 = Except.ok () ∧
      ((∀ i, wAllUploadsFail.finalUpload i = false) →
        countUploads (runModel wAllUploadsFail).1 = 5) ∧
      Ev.setOutputFinished true ∈ (runModel wAllUploadsFail).1 ∧
      Ev.setOutputFinished false ∉ (runModel wAllUploadsFail).1) ∧
    (wAllUploadsFail.buildExit ≠ 0 →
      (runModel wAllUploadsFail).2 = Except.ok () ∧
      ((∀ i, wAllUploadsFail.snapUpload i = false) →
        countUploads (runModel wAllUploadsFail).1 = 5)) :=
  c3_upload_retry_policy wAllUploadsFail rfl
    (by intro h; exact absurd h (by decide))

/-- C4: on nonzero build exit the action sleeps the fixed 5000 ms grace
period, then compresses the build source tree `cBuildSrc` into the fixed
archive path `cTopArtifactsZip` (its exit code ignored: `runModel` is
invariant under changing it), publishes only under the snapshot artifact
name, and sets the finished output to false (never true) while ending
normally, regardless of snapshot or upload outcomes. -/
theorem c4_snapshot_on_build_failure (w : World) (hf : w.finished = false)
    (hres : resumeSucceeds w) (hb : w.buildExit ≠ 0) :
    (∃ pre post, (runModel w).1 =
      pre ++ Ev.sleep 5000 :: Ev.snapshotCompress cTopArtifactsZip cBuildSrc :: post) ∧
    (∀ e, runModel { w with snapCompressExit := e } = runModel w) ∧
    (∀ n f r b, Ev.uploadArtifact n f r b ∈ (runModel w).1 →
      n = artifactName w.x86 w.arm ∧ f = cTopArtifactsZip ∧ r = cRepoRoot) ∧
    Ev.setOutputFinished false ∈ (runModel w).1 ∧
    Ev.setOutputFinished true ∉ (runModel w).1 ∧
    (runModel w).2 = Except.ok () := by
  have hshape := runModel_shape w hf hres
  refine ⟨?_, ?_, ?_, ?_, ?_, ?_⟩
  · refine ⟨resumeEvs w ++ [Ev.pipInstall, Ev.runBuild (buildArgs w.x86 w.arm)],
      uploadLoop (artifactName w.x86 w.arm) cTopArtifactsZip cRepoRoot
        w.snapUpload 0 5 ++ [Ev.setOutputFinished false], ?_⟩
    rw [hshape]
    simp [hb, snapshotPhase, List.append_assoc]
  · intro e
    cases w
    rfl
  · intro n f r b hmem
    rw [hshape] at hmem
    simp only [hb, if_neg, not_false_iff, snapshotPhase, List.mem_append,
      List.mem_cons, List.mem_singleton, List.not_mem_nil, or_false] at hmem
    rcases hmem with (h | h) | h | h | (h | h)
    · exact absurd h (upload_not_mem_resumeEvs w n f r b)
    · simp at h
    · simp at h
    · simp at h
    · rcases mem_uploadLoop 5 0 h with h2 | ⟨b2, h2⟩ | h2
      · simp at h2
      · simp only [Ev.uploadArtifact.injEq] at h2
        exact ⟨h2.1, h2.2.1, h2.2.2.1⟩
      · simp at h2
    · simp at h
  · rw [hshape]
    simp [hb, snapshotPhase, List.mem_append]
  · rw [hshape]
    simp only [hb, if_neg, not_false_iff, snapshotPhase, List.mem_append,
      List.mem_cons, List.mem_singleton, List.not_mem_nil, or_false]
    intro hmem
    rcases hmem with (h | h) | h | h | (h | h)
    · exact setOutput_not_mem_resumeEvs w true h
    · simp at h
    · simp at h
    · simp at h
    · exact setOutput_not_mem_uploadLoop true _ _ _ _ 5 0 h
    · simp at h
  · rw [hshape]
    simp [hb, snapshotPhase]

/-- Witness for C4. -/
theorem c4_snapshot_on_build_failure_witness :
    (∃ pre post, (runModel wBuildFail).1 =
      pre ++ Ev.sleep 5000 :: Ev.snapshotCompress cTopArtifactsZip cBuildSrc :: post) ∧
    (∀ e, runModel { wBuildFail with snapCompressExit := e } = runModel wBuildFail) ∧
    (∀ n f r b, Ev.uploadArtifact n f r b ∈ (runModel wBuildFail).1 →
      n = artifactName wBuildFail.x86 wBuildFail.arm ∧ f = cTopArtifactsZip ∧
        r = cRepoRoot) ∧
    Ev.setOutputFinished false ∈ (runModel wBuildFail).1 ∧
    Ev.setOutputFinished true ∉ (runModel wBuildFail).1 ∧
    (runModel wBuildFail).2 = Except.ok () :=
  c4_snapshot_on_build_failure wBuildFail rfl
    (by intro h; exact absurd h (by decide)) (by decide)

/-- C5: when the version query fails (`none`), the packager substitutes
the literal string unknown instead of aborting, and that placeholder
appears consistently in the version field, the version subdirectory name,
the archive filename and the README text (which is the README template
instantiated at unknown). -/
theorem c5_unknown_version_consistency (files : List String) (x86 arm : Bool) :
    (createPortableStructure files x86 arm none).version = "unknown" ∧
    (createPortableStructure files x86 arm none).versionDirName = "unknown" ∧
    (createPortableStructure files x86 arm none).archiveName =
      "ungoogled-chromium-unknown-" ++ archTag x86 arm ++ "-portable.zip" ∧
    (createPortableStructure files x86 arm none).readme =
      readmeText "unknown" (archTag x86 arm) := by
  cases x86 <;> cases arm <;>
    simp [createPortableStructure, versionOf, archTag] <;> decide

/-- C6: with from_artifact false the trace contains no restore side
effect at all; with from_artifact true the invocation starts by fetching
the architecture-qualified snapshot artifact, downloading it to the fixed
build directory, extracting it in place and deleting the compressed copy,
in that order — and a failure of any of these four steps stops the
invocation right there with a propagated error (one attempt, nothing
retried or swallowed). -/
theorem c6_resume_manager (w : World) (hf : w.finished = false) :
    (w.from_artifact = false → ∀ e ∈ (runModel w).1, isRestoreEv e = false) ∧
    (w.from_artifact = true →
      (w.getArtifactOk = true → w.downloadOk = true → w.extractExit = 0 →
        w.rmOk = true →
        ∃ rest, (runModel w).1 =
          Ev.getArtifact (artifactName w.x86 w.arm) :: Ev.downloadArtifact cBuildDir ::
          Ev.extractZip cBuildArtifactsZip cBuildDir :: Ev.rmRF cBuildArtifactsZip ::
          rest) ∧
      (w.getArtifactOk = false →
        runModel w = ([Ev.getArtifact (artifactName w.x86 w.arm)],
          Except.error "getArtifact failed")) ∧
      (w.getArtifactOk = true → w.downloadOk = false →
        runModel w = ([Ev.getArtifact (artifactName w.x86 w.arm),
          Ev.downloadArtifact cBuildDir], Except.error "downloadArtifact failed")) ∧
      (w.getArtifactOk = true → w.downloadOk = true → w.extractExit ≠ 0 →
        runModel w = ([Ev.getArtifact (artifactName w.x86 w.arm),
          Ev.downloadArtifact cBuildDir, Ev.extractZip cBuildArtifactsZip cBuildDir],
          Except.error "7z extract exited nonzero")) ∧
      (w.getArtifactOk = true → w.downloadOk = true → w.extractExit = 0 →
        w.rmOk = false →
        runModel w = ([Ev.getArtifact (artifactName w.x86 w.arm),
          Ev.downloadArtifact cBuildDir, Ev.extractZip cBuildArtifactsZip cBuildDir,
          Ev.rmRF cBuildArtifactsZip], Except.error "rmRF failed"))) := by
  constructor
  · intro hfa e he
    have hres : resumeSucceeds w := fun h => absurd h (by simp [hfa])
    rw [runModel_shape w hf hres] at he
    simp only [resumeEvs, hfa, Bool.false_eq_true, if_neg, not_false_iff,
      List.nil_append, List.mem_append, List.mem_cons, List.not_mem_nil,
      or_false] at he
    rcases he with (h | h) | h
    · subst h; rfl
    · subst h; rfl
    · by_cases hb : w.buildExit = 0
      · simp only [hb, if_pos] at h
        exact isRestoreEv_false_successPhase w e h
      · simp only [hb, if_neg, not_false_iff] at h
        exact isRestoreEv_false_snapshotPhase w e h
  · intro hfa
    refine ⟨?_, ?_, ?_, ?_, ?_⟩
    · intro h1 h2 h3 h4
      have hres : resumeSucceeds w := fun _ => ⟨h1, h2, h3, h4⟩
      refine ⟨[Ev.pipInstall, Ev.runBuild (buildArgs w.x86 w.arm)] ++
        (if w.buildExit = 0 then (successPhase w).1 else (snapshotPhase w).1), ?_⟩
      rw [runModel_shape w hf hres]
      simp [resumeEvs, hfa]
    · intro h1
      simp [runModel, hf, resumePhase, hfa, h1]
    · intro h1 h2
      simp [runModel, hf, resumePhase, hfa, h1, h2]
    · intro h1 h2 h3
      simp [runModel, hf, resumePhase, hfa, h1, h2, h3]
    · intro h1 h2 h3 h4
      simp [runModel, hf, resumePhase, hfa, h1, h2, h3, h4]

/-- Witness for C6. -/
theorem c6_resume_manager_witness :
    (wResumeFetchFail.from_artifact = false →
      ∀ e ∈ (runModel wResumeFetchFail).1, isRestoreEv e = false) ∧
    (wResumeFetchFail.from_artifact = true →
      (wResumeFetchFail.getArtifactOk = true → wResumeFetchFail.downloadOk = true →
        wResumeFetchFail.extractExit = 0 → wResumeFetchFail.rmOk = true →
        ∃ rest, (runModel wResumeFetchFail).1 =
          Ev.getArtifact (artifactName wResumeFetchFail.x86 wResumeFetchFail.arm) ::
          Ev.downloadArtifact cBuildDir ::
          Ev.extractZip cBuildArtifactsZip cBuildDir :: Ev.rmRF cBuildArtifactsZip ::
          rest) ∧
      (wResumeFetchFail.getArtifactOk = false →
        runModel wResumeFetchFail =
          ([Ev.getArtifact (artifactName wResumeFetchFail.x86 wResumeFetchFail.arm)],
          Except.error "getArtifact failed")) ∧
      (wResumeFetchFail.getArtifactOk = true → wResumeFetchFail.downloadOk = false →
        runModel wResumeFetchFail =
          ([Ev.getArtifact (artifactName wResumeFetchFail.x86 wResumeFetchFail.arm),
          Ev.downloadArtifact cBuildDir], Except.error "downloadArtifact failed")) ∧
      (wResumeFetchFail.getArtifactOk = true → wResumeFetchFail.downloadOk = true →
        wResumeFetchFail.extractExit ≠ 0 →
        runModel wResumeFetchFail =
          ([Ev.getArtifact (artifactName wResumeFetchFail.x86 wResumeFetchFail.arm),
          Ev.downloadArtifact cBuildDir, Ev.extractZip cBuildArtifactsZip cBuildDir],
          Except.error "7z extract exited nonzero")) ∧
      (wResumeFetchFail.getArtifactOk = true → wResumeFetchFail.downloadOk = true →
        wResumeFetchFail.extractExit = 0 → wResumeFetchFail.rmOk = false →
        runModel wResumeFetchFail =
          ([Ev.getArtifact (artifactName wResumeFetchFail.x86 wResumeFetchFail.arm),
          Ev.downloadArtifact cBuildDir, Ev.extractZip cBuildArtifactsZip cBuildDir,
          Ev.rmRF cBuildArtifactsZip], Except.error "rmRF failed"))) :=
  c6_resume_manager wResumeFetchFail rfl

/-- C7: an entry of the build output directory whose name starts with
chromePortable- (a previously created portable package) is excluded from
the new package: it is neither copied into the version subdirectory nor
copied to the package root. -/
theorem c7_previous_package_excluded (files : List String) (x86 arm : Bool)
    (vq : Option String) (f : String) (hmem : f ∈ files)
    (hpre : strStartsWith f "chromePortable-" = true) :
    f ∉ (createPortableStructure files x86 arm vq).versionEntries ∧
    f ∉ (createPortableStructure files x86 arm vq).rootCopied := by
  constructor
  · intro hin
    simp only [createPortableStructure, List.mem_filter, Bool.and_eq_true,
      Bool.not_eq_true'] at hin
    exact absurd hpre (by simp [hin.2.2])
  · intro hin
    simp only [createPortableStructure, List.mem_filter, beq_iff_eq] at hin
    rw [hin.2] at hpre
    exact absurd hpre (by decide)

/-- Witness for C7 at a concrete re-run listing. -/
theorem c7_previous_package_excluded_witness :
    "chromePortable-x64" ∉
      (createPortableStructure ["chrome.exe", "chromePortable-x64", "a.pak"]
        false false (some "1.0")).versionEntries ∧
    "chromePortable-x64" ∉
      (createPortableStructure ["chrome.exe", "chromePortable-x64", "a.pak"]
        false false (some "1.0")).rootCopied :=
  c7_previous_package_excluded ["chrome.exe", "chromePortable-x64", "a.pak"]
    false false (some "1.0") "chromePortable-x64" (by decide) (by decide)

/-- C8 counterexample: at a concrete build listing the user-data
directory of the finished package is not empty — it holds the generated
.gitkeep. -/
theorem c8_claim_counterexample :
    ¬ c8AsStated ["chrome.exe", "icudtl.dat"] false false (some "138.0.7204.97") := by
  unfold c8AsStated
  decide

/-- C8 (amended): the entry-point executable lives at the package root,
everything copied from the build output other than it lives under the
version subdirectory, and at creation time the user-data directory holds
exactly the generated .gitkeep placeholder rather than being empty. -/
theorem c8_package_invariant (files : List String) (x86 arm : Bool)
    (vq : Option String) (hmem : "chrome.exe" ∈ files) :
    "chrome.exe" ∈ (createPortableStructure files x86 arm vq).rootFiles ∧
    (∀ f ∈ (createPortableStructure files x86 arm vq).rootCopied, f = "chrome.exe") ∧
    (∀ f ∈ files, f ≠ "chrome.exe" → strStartsWith f "chromePortable-" = false →
      f ∈ (createPortableStructure files x86 arm vq).versionEntries) ∧
    (∀ f ∈ (createPortableStructure files x86 arm vq).versionEntries,
      f ≠ "chrome.exe") ∧
    (createPortableStructure files x86 arm vq).userDataEntries = [".gitkeep"] := by
  refine ⟨?_, ?_, ?_, ?_, ?_⟩
  · simp [createPortableStructure, List.mem_filter, hmem]
  · intro f hf
    simp only [createPortableStructure, List.mem_filter, beq_iff_eq] at hf
    exact hf.2
  · intro f hf hne hnp
    simp [createPortableStructure, List.mem_filter, hf, hne, hnp]
  · intro f hf
    simp only [createPortableStructure, List.mem_filter, Bool.and_eq_true,
      Bool.not_eq_true', beq_eq_false_iff_ne] at hf
    exact hf.2.1
  · simp [createPortableStructure]

/-- Witness for C8 (amended) at a concrete build listing. -/
theorem c8_package_invariant_witness :
    "chrome.exe" ∈ (createPortableStructure ["chrome.exe", "icudtl.dat"] false false
      (some "138.0.7204.97")).rootFiles ∧
    (∀ f ∈ (createPortableStructure ["chrome.exe", "icudtl.dat"] false false
        (some "138.0.7204.97")).rootCopied, f = "chrome.exe") ∧
    (∀ f ∈ ["chrome.exe", "icudtl.dat"], f ≠ "chrome.exe" →
      strStartsWith f "chromePortable-" = false →
      f ∈ (createPortableStructure ["chrome.exe", "icudtl.dat"] false false
        (some "138.0.7204.97")).versionEntries) ∧
    (∀ f ∈ (createPortableStructure ["chrome.exe", "icudtl.dat"] false false
        (some "138.0.7204.97")).versionEntries, f ≠ "chrome.exe") ∧
    (createPortableStructure ["chrome.exe", "icudtl.dat"] false false
      (some "138.0.7204.97")).userDataEntries = [".gitkeep"] :=
  c8_package_invariant ["chrome.exe", "icudtl.dat"] false false
    (some "138.0.7204.97") (by decide)

/-- C9: with both x86 and arm inputs true, the x86 selection takes
precedence in every derived name (architecture tag x86, artifact names
build-artifact-x86 and chromium-x86), yet the build driver is invoked
with both architecture flags. -/
theorem c9_x86_precedence_but_both_flags (w : World)
    (hx : w.x86 = true) (ha : w.arm = true) (hf : w.finished = false)
    (hres : resumeSucceeds w) :
    archTag w.x86 w.arm = "x86" ∧
    artifactName w.x86 w.arm = "build-artifact-x86" ∧
    finalArtifactName w.x86 w.arm = "chromium-x86" ∧
    buildArgs w.x86 w.arm = ["build.py", "--ci", "--x86", "--arm"] ∧
    Ev.runBuild ["build.py", "--ci", "--x86", "--arm"] ∈ (runModel w).1 := by
  have hargs : buildArgs w.x86 w.arm = ["build.py", "--ci", "--x86", "--arm"] := by
    rw [hx, ha]; rfl
  refine ⟨by rw [hx]; rfl, by rw [hx]; rfl, by rw [hx]; rfl, hargs, ?_⟩
  rw [runModel_shape w hf hres, hargs]
  simp [List.mem_append]

/-- Witness for C9. -/
theorem c9_x86_precedence_but_both_flags_witness :
    archTag { wDefault with x86 := true, arm := true }.x86
        { wDefault with x86 := true, arm := true }.arm = "x86" ∧
    artifactName { wDefault with x86 := true, arm := true }.x86
        { wDefault with x86 := true, arm := true }.arm = "build-artifact-x86" ∧
    finalArtifactName { wDefault with x86 := true, arm := true }.x86
        { wDefault with x86 := true, arm := true }.arm = "chromium-x86" ∧
    buildArgs { wDefault with x86 := true, arm := true }.x86
        { wDefault with x86 := true, arm := true }.arm =
      ["build.py", "--ci", "--x86", "--arm"] ∧
    Ev.runBuild ["build.py", "--ci", "--x86", "--arm"] ∈
      (runModel { wDefault with x86 := true, arm := true }).1 :=
  c9_x86_precedence_but_both_flags { wDefault with x86 := true, arm := true }
    rfl rfl rfl (by intro h; exact absurd h (by decide))

/-- C10: when the finished input is true, the invocation sets the
finished output to true and does nothing else: the whole trace is that
single output event, and the invocation ends normally. -/
theorem c10_finished_input_short_circuits (w : World) (h : w.finished = true) :
    runModel w = ([Ev.setOutputFinished true], Except.ok ()) := by
  simp [runModel, h]

/-- Witness for C10. -/
theorem c10_finished_input_short_circuits_witness :
    runModel { wDefault with finished := true } =
      ([Ev.setOutputFinished true], Except.ok ()) :=
  c10_finished_input_short_circuits { wDefault with finished := true } rfl
